import Mathlib

/-!
Verification development for the Arcanara reading engine
(`src/arcanara_bot.py`).  Python strings are modelled as `String`
(sequences of `Char`, matching Python's code-point semantics), dicts
keyed by user id as association lists or `Nat → Option _` maps, and the
random number generator as explicit parameters (a shuffled deck, an
index, a coin).  Database tables are modelled as lists of rows and the
SQL statements the code issues are translated into the corresponding
list operations.
-/

namespace Arcanara

/-- Python's `str.strip()`: drop whitespace from both ends
(character-list model). -/
def pyStrip (l : List Char) : List Char :=
  ((l.dropWhile Char.isWhitespace).reverse.dropWhile Char.isWhitespace).reverse

/-- Python's `str.strip()` on `String`. -/
def pyStripS (s : String) : String :=
  String.mk (pyStrip s.data)

/-- Python's `str.lower()`: per-character lowercasing. -/
def pyLower (s : String) : String :=
  String.mk (s.data.map Char.toLower)

/-- Constant `DEFAULT_TONE = "quick"` (arcanara_bot.py line 169). -/
def DEFAULT_TONE : String := "quick"

/-- Table `TONE_SPECS` (arcanara_bot.py lines 171-184): tone name to the
ordered list of block tokens rendered for that tone. -/
def TONE_SPECS (t : String) : Option (List String) :=
  match t with
  | "quick"  => some ["quick", "call_to_action"]
  | "poetic" => some ["poetic_hint", "meaning", "mantra", "call_to_action"]
  | "direct" => some ["reader_voice", "tell", "do_dont", "prescription", "watch_for",
                      "pitfall", "questions", "next_24h", "call_to_action"]
  | "shadow" => some ["reader_voice", "tell", "shadow", "watch_for", "pitfall",
                      "questions", "call_to_action"]
  | "love"   => some ["reader_voice", "tell", "relationships", "green_red", "pitfall",
                      "questions", "call_to_action"]
  | "work"   => some ["reader_voice", "tell", "work", "prescription", "watch_for",
                      "next_24h", "call_to_action"]
  | "money"  => some ["reader_voice", "tell", "money", "prescription", "watch_for",
                      "next_24h", "call_to_action"]
  | "full"   => some ["reader_voice", "tell", "meaning", "mantra", "do_dont",
                      "prescription", "watch_for", "pitfall", "shadow", "green_red",
                      "questions", "next_24h", "call_to_action"]
  | _ => none

/-- Function `normalize_tone` (lines 197-199): lowercase and strip, fall back to
`DEFAULT_TONE` when the result is not a known tone. -/
def normalize_tone (tone : String) : String :=
  let t := pyStripS (pyLower tone)
  if (TONE_SPECS t).isSome then t else DEFAULT_TONE

/-- The `lenses` sub-dict of `direct_guidance`.  Missing keys are
`none` (Python `dict.get` with no hit). -/
structure Lenses where
  relationships : Option String := none
  work : Option String := none
  money : Option String := none
deriving DecidableEq

/-- The `direct_guidance` dict of a card.  Every field the renderer
reads; missing keys are `none`. -/
structure DirectGuidance where
  mantra : Option String := none
  quick : Option String := none
  doField : Option String := none
  dont : Option String := none
  watch_for : Option String := none
  shadow : Option String := none
  questions : List String := []
  next_24h : Option String := none
  relationships : Option String := none
  work : Option String := none
  money : Option String := none
  tell : Option String := none
  prescription : Option String := none
  pitfall : Option String := none
  green_flag : Option String := none
  red_flag : Option String := none
  reader_voice : Option String := none
  poetic_hint : Option String := none
  lenses : Option Lenses := none
deriving DecidableEq

/-- A card dict from `Tarot_Official.JSON` as the renderer and draw
engine consume it.  `name` is total (every card in the dataset carries
one); the content fields are optional keys. -/
structure Card where
  name : String
  suit : Option String := none
  upright : Option String := none
  reversed : Option String := none
  call_to_action : Option String := none
  direct_guidance : Option DirectGuidance := none
deriving DecidableEq

/-- Function `_clip` (lines 237-241): strip, return unchanged when within
`max_len`, otherwise cut to `max_len - 1` characters and append the
ellipsis truncation marker. -/
def _clip (text : String) (max_len : Nat := 3800) : String :=
  let t := pyStrip text.data
  if t.length ≤ max_len then String.mk t
  else String.mk (t.take (max_len - 1) ++ ['…'])

/-- The `do_dont()` helper inside `render_card_text` (lines 254-259). -/
def do_dont_block (dg : DirectGuidance) : String :=
  let d := dg.doField.getD ""
  let dn := dg.dont.getD ""
  if d ≠ "" ∧ dn ≠ "" then "**Do:** " ++ d ++ "\n**Don\x27t:** " ++ dn
  else if d ≠ "" then d else dn

/-- The `questions()` helper inside `render_card_text` (lines 261-264). -/
def questions_block (dg : DirectGuidance) : String :=
  let qs := dg.questions.filter (fun q => pyStrip q.data ≠ [])
  if qs ≠ [] then "**Ask:** " ++ String.intercalate " | " (qs.take 3) else ""

/-- One iteration of the token loop of `render_card_text`
(lines 266-366): the block(s) a single spec token contributes
(`[]` when the source field is empty and the block is skipped). -/
def token_block (card : Card) (meaning : String) (token : String) : List String :=
  let dg := card.direct_guidance.getD {}
  let lenses := dg.lenses.getD {}
  match token with
  | "meaning" => [meaning]
  | "mantra" =>
      let m := dg.mantra.getD ""
      if m ≠ "" then ["**Mantra:** " ++ m] else []
  | "quick" =>
      let q := dg.quick.getD ""
      if q ≠ "" then [q] else []
  | "do" =>
      let d := dg.doField.getD ""
      if d ≠ "" then ["**Do:** " ++ d] else []
  | "do_dont" =>
      let dd := do_dont_block dg
      if dd ≠ "" then [dd] else []
  | "watch_for" =>
      let w := dg.watch_for.getD ""
      if w ≠ "" then ["**Watch for:** " ++ w] else []
  | "shadow" =>
      let s := dg.shadow.getD ""
      if s ≠ "" then ["**Shadow:** " ++ s] else []
  | "questions" =>
      let qs := questions_block dg
      if qs ≠ "" then [qs] else []
  | "next_24h" =>
      let n := dg.next_24h.getD ""
      if n ≠ "" then ["**Next 24h:** " ++ n] else []
  | "relationships" =>
      let lv := (lenses.relationships).getD ""
      let txt := if lv ≠ "" then lv else dg.relationships.getD ""
      if txt ≠ "" then ["**Love/People:** " ++ txt] else []
  | "work" =>
      let lv := (lenses.work).getD ""
      let txt := if lv ≠ "" then lv else dg.work.getD ""
      if txt ≠ "" then ["**Work:** " ++ txt] else []
  | "money" =>
      let lv := (lenses.money).getD ""
      let txt := if lv ≠ "" then lv else dg.money.getD ""
      if txt ≠ "" then ["**Money:** " ++ txt] else []
  | "tell" =>
      let t := dg.tell.getD ""
      if t ≠ "" then ["**The truth:** " ++ t] else []
  | "prescription" =>
      let p := dg.prescription.getD ""
      if p ≠ "" then ["**Do this:** " ++ p] else []
  | "pitfall" =>
      let p := dg.pitfall.getD ""
      if p ≠ "" then ["**Pitfall:** " ++ p] else []
  | "green_red" =>
      let gf := dg.green_flag.getD ""
      let rf := dg.red_flag.getD ""
      if gf ≠ "" ∨ rf ≠ "" then
        [String.intercalate "\n"
          ((if gf ≠ "" then ["**Green flag:** " ++ gf] else []) ++
           (if rf ≠ "" then ["**Red flag:** " ++ rf] else []))]
      else []
  | "reader_voice" =>
      let rv := dg.reader_voice.getD ""
      if rv ≠ "" then ["*" ++ rv ++ "*"] else []
  | "poetic_hint" =>
      let ph := dg.poetic_hint.getD ""
      if ph ≠ "" then ["*" ++ ph ++ "*"] else []
  | "call_to_action" =>
      let a := card.call_to_action.getD ""
      if a ≠ "" then ["**Action:** " ++ a] else []
  | _ => []

/-- The `blocks` list assembled by `render_card_text` (lines 244-366)
before joining and clipping. -/
def render_blocks (card : Card) (orientation tone : String) : List String :=
  let tone := normalize_tone tone
  let spec := (TONE_SPECS tone).getD ((TONE_SPECS DEFAULT_TONE).getD [])
  let is_rev := pyLower orientation == "reversed"
  let meaning := (if is_rev then card.reversed else card.upright).getD "—"
  spec.foldr (fun token acc => token_block card meaning token ++ acc) []

/-- Function `render_card_text` (lines 244-368): join the blocks with a blank
line and clip to the hard ceiling. -/
def render_card_text (card : Card) (orientation tone : String) : String :=
  _clip (String.intercalate "\n\n" (render_blocks card orientation tone))

/-- A word character for the purposes of the `\b` boundaries in
`NUM_WORDS_RE` (Python regex word chars `[a-zA-Z0-9_]`). -/
def isWordChar (c : Char) : Bool :=
  c.isAlphanum || c == '_'

/-- Table `NUM_WORDS` (lines 643-654): the number-word to digit table. -/
def NUM_WORDS (w : String) : Option String :=
  match w with
  | "one" => some "1"
  | "two" => some "2"
  | "three" => some "3"
  | "four" => some "4"
  | "five" => some "5"
  | "six" => some "6"
  | "seven" => some "7"
  | "eight" => some "8"
  | "nine" => some "9"
  | "ten" => some "10"
  | _ => none

/-- Emit one completed maximal word-char run: a run equal to a number
word is replaced by its digits, any other run is kept verbatim. -/
def emitRun (run : List Char) : List Char :=
  match NUM_WORDS (String.mk run) with
  | some d => d.data
  | none => run

/-- Worker for `replNumWords`: `run` is the reversed word-char run
currently being accumulated. -/
def replNumWordsAux (run : List Char) : List Char → List Char
  | [] => emitRun run.reverse
  | c :: cs =>
    if isWordChar c then replNumWordsAux (c :: run) cs
    else emitRun run.reverse ++ c :: replNumWordsAux [] cs

/-- Substitution `NUM_WORDS_RE.sub` (line 660): the pattern `\b(one|...|ten)\b` can
only match a maximal run of word characters in its entirety, so
substitution replaces every maximal word-char run that equals a number
word by its digits and leaves everything else alone. -/
def replNumWords (l : List Char) : List Char :=
  replNumWordsAux [] l

/-- Worker for `collapseWS`: `inRun` records whether the previous
character was whitespace (a single space was already emitted for the
current run). -/
def collapseWSAux (inRun : Bool) : List Char → List Char
  | [] => []
  | c :: cs =>
    if c.isWhitespace then
      if inRun then collapseWSAux true cs else ' ' :: collapseWSAux true cs
    else c :: collapseWSAux false cs

/-- Substitution `re.sub` of whitespace runs (line 662): collapse each maximal
whitespace run to a single space. -/
def collapseWS (l : List Char) : List Char :=
  collapseWSAux false l

/-- Function `normalize_card_name` (lines 658-663): lowercase + strip, replace
number words, drop everything outside `[a-z0-9\s]`, collapse
whitespace. -/
def normalize_card_name (name : String) : String :=
  let s := pyStrip (pyLower name).data
  let s := replNumWords s
  let s := s.filter (fun c => ('a' ≤ c && c ≤ 'z') || ('0' ≤ c && c ≤ '9') || c.isWhitespace)
  String.mk (collapseWS s)

/-- The `matches` list in `meaning_slash` (lines 1532-1536): cards
whose normalized name equals the normalized query or contains it as a
substring. -/
def meaning_matches (catalog : List Card) (query : String) : List Card :=
  let nq := normalize_card_name query
  catalog.filter (fun c =>
    normalize_card_name c.name == nq
    || decide (nq.data <:+: (normalize_card_name c.name).data))

/-- The outcome of the `/meaning` lookup: the code either reports "no
card named ..." or proceeds with one chosen card. -/
inductive MeaningOutcome
  | notFound
  | resolved (c : Card)
deriving DecidableEq

/-- The card-resolution step of `meaning_slash` (lines 1538-1546):
empty match list reports not-found, otherwise `chosen = matches[0]`. -/
def meaning_lookup (catalog : List Card) (query : String) : MeaningOutcome :=
  match meaning_matches catalog query with
  | [] => .notFound
  | c :: _ => .resolved c

/-- Function `find_card_by_name` (lines 700-701): first card with the exact
name. -/
def find_card_by_name (catalog : List Card) (name : String) : Option Card :=
  catalog.find? (fun c => c.name == name)

/-- Model of `random.choice` over the two orientations, with the coin
made explicit. -/
def choose_orientation (b : Bool) : String :=
  if b then "Upright" else "Reversed"

/-- Function `draw_card` (lines 703-706): `random.choice(tarot_cards)` with the
chosen index made explicit (`none` models the `IndexError` raised on an
empty catalog), plus a random orientation. -/
def draw_card (catalog : List Card) (k : Nat) (b : Bool) : Option (Card × String) :=
  (catalog.get? (k % catalog.length)).map (fun c => (c, choose_orientation b))

/-- The pop-and-append loop of `draw_unique_cards` (lines 712-716) run
on the deck with its order reversed (popping from the back of a list is
consuming the reversed list front to back); `bits` is the stream of
orientation coins. -/
def drawTake : List Card → (Nat → Bool) → Nat → List (Card × String)
  | _, _, 0 => []
  | [], _, _ + 1 => []
  | c :: rest, bits, k + 1 =>
      (c, choose_orientation (bits 0)) :: drawTake rest (fun i => bits (i + 1)) k

/-- Function `draw_unique_cards` (lines 709-717): copy the catalog, shuffle it
(the post-shuffle order `deck` is the explicit random input), then pop
`min num_cards (deck.length)` cards off the end, each with an
independent random orientation. -/
def draw_unique_cards (deck : List Card) (bits : Nat → Bool) (num_cards : Nat) :
    List (Card × String) :=
  drawTake deck.reverse bits (min num_cards deck.length)

/-- The `tarot_daily_card` table: rows keyed by `(user_id, day)` with
`(card_name, orientation)` payload (`day` abstracted as `Nat`). -/
abbrev DailyDB := List ((Nat × Nat) × (String × String))

/-- Function `get_daily_card_row` (lines 674-685): `SELECT card_name,
orientation ... WHERE user_id=%s AND day=%s`. -/
def get_daily_card_row (db : DailyDB) (user_id day : Nat) : Option (String × String) :=
  (db.find? (fun e => e.1 == (user_id, day))).map (·.2)

/-- Function `set_daily_card_row` (lines 687-698): `INSERT ... ON CONFLICT
(user_id, day) DO NOTHING` — a no-op when the key is already
present. -/
def set_daily_card_row (db : DailyDB) (user_id day : Nat)
    (card_name orientation : String) : DailyDB :=
  if (db.find? (fun e => e.1 == (user_id, day))).isSome then db
  else ((user_id, day), (card_name, orientation)) :: db

/-- The daily-card core of `cardoftheday_slash` (lines 1234-1246):
return the stored row when its card name still resolves against the
catalog, otherwise draw (`k`, `b` are the RNG inputs), persist via the
insert-if-absent and return the draw.  The result is the
`(card name, orientation)` pair shown to the user together with the
table state afterwards; `none` models the empty-catalog crash. -/
def cardoftheday (catalog : List Card) (db : DailyDB) (user_id day : Nat)
    (k : Nat) (b : Bool) : Option ((String × String) × DailyDB) :=
  match get_daily_card_row db user_id day with
  | some (name, orientation) =>
    match find_card_by_name catalog name with
    | some _ => some ((name, orientation), db)
    | none =>
        (draw_card catalog k b).map (fun co =>
          ((co.1.name, co.2), set_daily_card_row db user_id day co.1.name co.2))
  | none =>
      (draw_card catalog k b).map (fun co =>
        ((co.1.name, co.2), set_daily_card_row db user_id day co.1.name co.2))

/-- An entry of the `MYSTERY_STATE` dict (lines 1654-1658). -/
structure MysteryEntry where
  name : String
  is_reversed : Bool
  ts : Nat
deriving DecidableEq

/-- Dict `MYSTERY_STATE` (line 22): a per-user dict, modelled as a map from
user id to the optional pending entry. -/
abbrev MysteryMap := Nat → Option MysteryEntry

/-- Assignment to `MYSTERY_STATE` in `mystery_slash` (lines 1654-1658):
store a pending entry, overwriting any prior one. -/
def begin_mystery (st : MysteryMap) (user_id : Nat) (e : MysteryEntry) : MysteryMap :=
  fun u => if u == user_id then some e else st u

/-- Call `MYSTERY_STATE.pop` with default `None` (line 1759). -/
def pop_mystery (st : MysteryMap) (user_id : Nat) : MysteryMap :=
  fun u => if u == user_id then none else st u

/-- The user-visible outcome of `/reveal`: the revealed card name and
orientation, the lost-track error when the stored name no longer
resolves, or the nothing-pending report. -/
inductive RevealOutcome
  | revealed (name orientation : String)
  | lostTrack
  | nothingPending
deriving DecidableEq

/-- The state logic of `reveal_slash` (lines 1705-1759): read the
pending entry (report `nothingPending` when absent and leave the map
alone); otherwise resolve the stored name against the catalog — the
`finally` clause pops the entry on both the success and the lost-track
path. -/
def reveal_step (catalog : List Card) (st : MysteryMap) (user_id : Nat) :
    RevealOutcome × MysteryMap :=
  match st user_id with
  | none => (.nothingPending, st)
  | some e =>
    match find_card_by_name catalog e.name with
    | none => (.lostTrack, pop_mystery st user_id)
    | some card =>
        (.revealed card.name (if e.is_reversed then "Reversed" else "Upright"),
         pop_mystery st user_id)

/-- A row of `tarot_user_settings` (lines 90-97). -/
structure Settings where
  history_opt_in : Bool
  images_enabled : Bool
deriving DecidableEq

/-- The defaults `get_user_settings` returns when no row exists
(line 386). -/
def default_settings : Settings :=
  { history_opt_in := false, images_enabled := true }

/-- A row of `tarot_reading_history` (lines 100-111). -/
structure HistRow where
  user_id : Nat
  command : String
  tone : String
  payload : String
  created_at : Nat
deriving DecidableEq

/-- Lines 511-512 of `log_history_if_opted_in`: use the caller-provided
settings when present, otherwise run `get_user_settings` (modelled by
`fetch`, which may fail). -/
def resolved_settings (settings? : Option Settings)
    (fetch : Except String Settings) : Except String Settings :=
  match settings? with
  | some s => .ok s
  | none => fetch

/-- The fallible body of `log_history_if_opted_in` (lines 510-526),
before the enclosing `try`/`except`: resolve the settings, return the
history unchanged unless `history_opt_in`, then attempt the `INSERT`
(whose possible failure `insert` models). -/
def log_history_body (hist : List HistRow) (row : HistRow)
    (settings? : Option Settings) (fetch : Except String Settings)
    (insert : Except String Unit) : Except String (List HistRow) :=
  match resolved_settings settings? fetch with
  | .error e => .error e
  | .ok s =>
    if ! s.history_opt_in then .ok hist
    else
      match insert with
      | .ok _ => .ok (hist ++ [row])
      | .error e => .error e

/-- Function `log_history_if_opted_in` (lines 497-529): the body wrapped in
`try`/`except` — any failure is swallowed (only printed) and the
history table is left as it was. -/
def log_history_if_opted_in (hist : List HistRow) (row : HistRow)
    (settings? : Option Settings) (fetch : Except String Settings)
    (insert : Except String Unit) : List HistRow :=
  match log_history_body hist row settings? fetch insert with
  | .ok h => h
  | .error _ => hist

/-- Function `fetch_history` (lines 418-445): `SELECT ... WHERE user_id=%s ORDER
BY created_at DESC LIMIT %s` over the history table. -/
def fetch_history (hist : List HistRow) (user_id : Nat) (limit : Nat) : List HistRow :=
  (((hist.filter (fun r => r.user_id == user_id)).mergeSort
      (fun a b => b.created_at ≤ a.created_at)).take limit)

/-- The limit clamp in `history_slash` (line 1179):
`10 if limit is None else max(1, min(int(limit), 20))`. -/
def history_slash_limit (limit : Option Int) : Int :=
  match limit with
  | none => 10
  | some l => max 1 (min l 20)

/-- The fetch performed by `/history` (lines 1175-1194): the user's
requested limit clamped, then `fetch_history`. -/
def history_slash_fetch (hist : List HistRow) (user_id : Nat) (limit : Option Int) :
    List HistRow :=
  fetch_history hist user_id (history_slash_limit limit).toNat

/-- All per-user state `forgetme_slash` can touch: the three
preference/history tables, the `tarot_daily_card` table, and the two
transient dicts. -/
structure BotState where
  prefs : List (Nat × String)
  settings : List (Nat × Settings)
  history : List HistRow
  daily : DailyDB
  intentions : Nat → Option String
  mystery : MysteryMap

/-- Handler `forgetme_slash` (lines 1862-1879): `DELETE` from
`tarot_user_prefs`, `tarot_user_settings` and `tarot_reading_history`
for the user, then pop the transient intention and mystery entries.
The source issues no `DELETE` against `tarot_daily_card`, so `daily`
is carried over unchanged. -/
def forgetme (st : BotState) (uid : Nat) : BotState :=
  { prefs := st.prefs.filter (fun p => p.1 != uid)
    settings := st.settings.filter (fun p => p.1 != uid)
    history := st.history.filter (fun r => r.user_id != uid)
    daily := st.daily
    intentions := fun u => if u == uid then none else st.intentions u
    mystery := pop_mystery st.mystery uid }

/-! ### Concrete fixtures used by witnesses and counterexamples -/

/-- A minimal catalog card. -/
def cardA : Card := { name := "Ace of Cups" }

/-- A second catalog card whose normalized name shares the suffix
"cups" with `cardA`. -/
def cardB : Card := { name := "Two of Cups" }

/-- A card with an upright meaning, used for draw/daily fixtures. -/
def cardC : Card := { name := "The Sun", upright := some "joy" }

/-- A 4000-character string, longer than the render ceiling. -/
def bigStr : String := String.mk (List.replicate 4000 'a')

/-- A card whose quick-block text alone exceeds the render ceiling. -/
def bigCard : Card :=
  { name := "Big", direct_guidance := some { quick := some bigStr } }

/-- A pending mystery entry naming `cardC`. -/
def mysteryE : MysteryEntry := { name := "The Sun", is_reversed := true, ts := 0 }

/-- A sample history row. -/
def histRow0 : HistRow :=
  { user_id := 1, command := "read", tone := "full", payload := "p", created_at := 5 }

/-- A state in which user 1 has data of every kind, including a
stored daily card. -/
def c5_state : BotState :=
  { prefs := [(1, "full")]
    settings := [(1, { history_opt_in := true, images_enabled := true })]
    history := [histRow0]
    daily := [((1, 20251012), ("The Sun", "Upright"))]
    intentions := fun u => if u == 1 then some "my focus" else none
    mystery := fun u => if u == 1 then some { name := "The Sun", is_reversed := false, ts := 0 } else none }

/-! ### Helper lemmas -/

theorem drawTake_map_fst (l : List Card) (bits : Nat → Bool) (k : Nat) :
    (drawTake l bits k).map Prod.fst = l.take k := by
  induction l generalizing bits k with
  | nil => cases k <;> simp [drawTake]
  | cons c rest ih =>
    cases k with
    | zero => simp [drawTake]
    | succ k => simp [drawTake, ih]

theorem drawTake_length (l : List Card) (bits : Nat → Bool) (k : Nat) :
    (drawTake l bits k).length = min k l.length := by
  have h := congrArg List.length (drawTake_map_fst l bits k)
  simpa using h

theorem drawTake_snd (l : List Card) (bits : Nat → Bool) (k : Nat) :
    ∀ p ∈ drawTake l bits k, p.2 = "Upright" ∨ p.2 = "Reversed" := by
  induction l generalizing bits k with
  | nil => cases k <;> simp [drawTake]
  | cons c rest ih =>
    cases k with
    | zero => simp [drawTake]
    | succ k =>
      intro p hp
      rcases List.mem_cons.mp hp with h | h
      · cases hb : bits 0 <;> subst h <;> simp [choose_orientation, hb]
      · exact ih _ _ p h

theorem mk_length (l : List Char) : (String.mk l).length = l.length := rfl

theorem _clip_length_le (s : String) : (_clip s).length ≤ 3800 := by
  unfold _clip
  by_cases h : (pyStrip s.data).length ≤ 3800
  · rw [if_pos h, mk_length]
    exact h
  · rw [if_neg h, mk_length, List.length_append, List.length_take]
    simp

theorem _clip_marker (s : String) (h : 3800 < (pyStrip s.data).length) :
    (_clip s).data.getLast? = some '…' := by
  unfold _clip
  rw [if_neg (by omega)]
  show (List.take _ _ ++ ['…']).getLast? = some '…'
  exact List.getLast?_concat _

theorem dropWhile_ws_replicate_a (n : Nat) :
    (List.replicate n 'a').dropWhile Char.isWhitespace = List.replicate n 'a' := by
  cases n with
  | zero => simp
  | succ n => rw [List.replicate_succ, List.dropWhile_cons]; simp

theorem pyStrip_replicate_a (n : Nat) :
    pyStrip (List.replicate n 'a') = List.replicate n 'a' := by
  unfold pyStrip
  rw [dropWhile_ws_replicate_a, List.reverse_replicate, dropWhile_ws_replicate_a,
    List.reverse_replicate]

theorem bigStr_ne_empty : bigStr ≠ "" := by
  intro h
  have hd : bigStr.data = ("" : String).data := congrArg String.data h
  rw [show bigStr.data = List.replicate 4000 'a' from rfl] at hd
  have hlen := congrArg List.length hd
  rw [List.length_replicate, List.length_nil] at hlen
  omega

theorem render_blocks_quick_generic (s : String) (hs : s ≠ "") :
    render_blocks { name := "Big", direct_guidance := some { quick := some s } }
      "Upright" "quick" = [s] := by
  have h1 : normalize_tone "quick" = "quick" := by decide
  have h2 : (pyLower "Upright" == "reversed") = false := by decide
  simp only [render_blocks, h1, h2]
  simp [TONE_SPECS, token_block, hs]

theorem render_blocks_bigCard_over_ceiling :
    3800 < (pyStrip
      (String.intercalate "\n\n" (render_blocks bigCard "Upright" "quick")).data).length := by
  rw [show bigCard = { name := "Big", direct_guidance := some { quick := some bigStr } } from rfl,
    render_blocks_quick_generic bigStr bigStr_ne_empty,
    show String.intercalate "\n\n" [bigStr] = bigStr from rfl,
    show bigStr.data = List.replicate 4000 'a' from rfl,
    pyStrip_replicate_a, List.length_replicate]
  norm_num

/-! ### Claims -/

/-- C2: for every `n` at most the catalog size, `draw_unique_cards`
returns exactly `n` cards, pairwise distinct, each paired with an
orientation that is either "Upright" or "Reversed" (quantifying over
every shuffled deck order and orientation-coin stream). -/
theorem draw_unique_cards_distinct (deck : List Card) (bits : Nat → Bool) (n : Nat)
    (hnd : deck.Nodup) (hn : n ≤ deck.length) :
    (draw_unique_cards deck bits n).length = n ∧
    ((draw_unique_cards deck bits n).map Prod.fst).Nodup ∧
    ∀ p ∈ draw_unique_cards deck bits n, p.2 = "Upright" ∨ p.2 = "Reversed" := by
  unfold draw_unique_cards
  refine ⟨?_, ?_, drawTake_snd _ _ _⟩
  · rw [drawTake_length, List.length_reverse]
    omega
  · rw [drawTake_map_fst]
    exact (List.nodup_reverse.mpr hnd).sublist (List.take_sublist _ _)

/-- Witness for C2 at a concrete two-card catalog. -/
theorem draw_unique_cards_distinct_witness :
    (([cardA, cardB] : List Card).Nodup ∧ 2 ≤ ([cardA, cardB] : List Card).length) ∧
    ((draw_unique_cards [cardA, cardB] (fun i => i % 2 == 0) 2).length = 2 ∧
     ((draw_unique_cards [cardA, cardB] (fun i => i % 2 == 0) 2).map Prod.fst).Nodup ∧
     ∀ p ∈ draw_unique_cards [cardA, cardB] (fun i => i % 2 == 0) 2,
       p.2 = "Upright" ∨ p.2 = "Reversed") :=
  ⟨⟨by decide, by decide⟩,
   draw_unique_cards_distinct [cardA, cardB] (fun i => i % 2 == 0) 2 (by decide) (by decide)⟩

/-- C3 counterexample: with a one-card catalog, asking for 2 cards is
not rejected — `draw_unique_cards` silently returns the single card. -/
theorem draw_unique_cards_no_rejection :
    draw_unique_cards [cardC] (fun _ => true) 2 = [(cardC, "Upright")] := by decide

/-- C3 amended: for every `n` strictly greater than the catalog size,
`draw_unique_cards` silently clamps and returns exactly catalog-size
cards; there is no bounds error. -/
theorem draw_unique_cards_clamps (deck : List Card) (bits : Nat → Bool) (n : Nat)
    (h : deck.length < n) :
    (draw_unique_cards deck bits n).length = deck.length := by
  unfold draw_unique_cards
  rw [drawTake_length, List.length_reverse]
  omega

/-- Witness for the amended C3 at a concrete catalog. -/
theorem draw_unique_cards_clamps_witness :
    (([cardC] : List Card).length < 5) ∧
    (draw_unique_cards [cardC] (fun _ => true) 5).length = ([cardC] : List Card).length :=
  ⟨by decide, draw_unique_cards_clamps [cardC] (fun _ => true) 5 (by decide)⟩

/-- C8: for every card, orientation and tone, the rendered text never
exceeds the 3800-character ceiling, and whenever the assembled
(stripped) text was longer than the ceiling the output ends with the
ellipsis truncation marker. -/
theorem render_card_text_bounded (card : Card) (orientation tone : String) :
    (render_card_text card orientation tone).length ≤ 3800 ∧
    (3800 < (pyStrip
        (String.intercalate "\n\n" (render_blocks card orientation tone)).data).length →
      (render_card_text card orientation tone).data.getLast? = some '…') :=
  ⟨_clip_length_le _, fun h => _clip_marker _ h⟩

/-- Witness for C8: a quick-block text of 4000 characters forces the
cut and the output carries the marker. -/
theorem render_card_text_bounded_witness :
    3800 < (pyStrip
      (String.intercalate "\n\n" (render_blocks bigCard "Upright" "quick")).data).length ∧
    (render_card_text bigCard "Upright" "quick").data.getLast? = some '…' :=
  ⟨render_blocks_bigCard_over_ceiling,
   (render_card_text_bounded bigCard "Upright" "quick").2 render_blocks_bigCard_over_ceiling⟩

/-- C1: the daily-card operation is idempotent per `(user, day)` key.
Whenever the table's stored row for the key (if any) still resolves
against the catalog, a first call yields a result and a table state,
and every subsequent call — with any random input — returns the same
`(card name, orientation)` pair and leaves the table unchanged (so the
row is created at most once). -/
theorem cardoftheday_idempotent (catalog : List Card) (db : DailyDB) (u d : Nat)
    (hcat : catalog ≠ [])
    (hres : ∀ p, get_daily_card_row db u d = some p →
      (find_card_by_name catalog p.1).isSome) (k : Nat) (b : Bool) :
    ∃ r db1, cardoftheday catalog db u d k b = some (r, db1) ∧
      ∀ kk bb, cardoftheday catalog db1 u d kk bb = some (r, db1) := by
  cases hrow : get_daily_card_row db u d with
  | some p =>
    obtain ⟨n, o⟩ := p
    obtain ⟨c, hc⟩ := Option.isSome_iff_exists.mp (hres (n, o) hrow)
    have hc2 : find_card_by_name catalog n = some c := hc
    refine ⟨(n, o), db, ?_, fun kk bb => ?_⟩
    · simp only [cardoftheday, hrow, hc2]
    · simp only [cardoftheday, hrow, hc2]
  | none =>
    have hlen : 0 < catalog.length := List.length_pos.mpr hcat
    have hk : k % catalog.length < catalog.length := Nat.mod_lt _ hlen
    have hc : catalog.get? (k % catalog.length) = some (catalog.get ⟨_, hk⟩) :=
      List.get?_eq_get hk
    set c : Card := catalog.get ⟨k % catalog.length, hk⟩ with hcdef
    have hmem : c ∈ catalog := by
      rw [hcdef]
      exact List.get_mem catalog _ hk
    have hdraw : draw_card catalog k b = some (c, choose_orientation b) := by
      unfold draw_card
      rw [hc]
      rfl
    have hfind : db.find? (fun e => e.1 == (u, d)) = none := by
      unfold get_daily_card_row at hrow
      exact Option.map_eq_none'.mp hrow
    have hset : set_daily_card_row db u d c.name (choose_orientation b) =
        ((u, d), (c.name, choose_orientation b)) :: db := by
      unfold set_daily_card_row
      rw [hfind]
      rfl
    refine ⟨(c.name, choose_orientation b),
      ((u, d), (c.name, choose_orientation b)) :: db, ?_, fun kk bb => ?_⟩
    · simp only [cardoftheday, hrow, hdraw, Option.map_some', hset]
    · have hrow1 : get_daily_card_row (((u, d), (c.name, choose_orientation b)) :: db)
          u d = some (c.name, choose_orientation b) := by
        unfold get_daily_card_row
        rw [List.find?_cons_of_pos _ (by simp)]
        rfl
      have hfound : (find_card_by_name catalog c.name).isSome := by
        unfold find_card_by_name
        rw [List.find?_isSome]
        exact ⟨c, hmem, by simp⟩
      obtain ⟨c', hc'⟩ := Option.isSome_iff_exists.mp hfound
      simp only [cardoftheday, hrow1, hc']

/-- Witness for C1: one-card catalog, empty table, first draw then a
re-draw with a different random input agree. -/
theorem cardoftheday_idempotent_witness :
    (([cardC] : List Card) ≠ [] ∧
      (∀ p, get_daily_card_row [] 1 2 = some p → (find_card_by_name [cardC] p.1).isSome)) ∧
    (∃ r db1, cardoftheday [cardC] [] 1 2 0 true = some (r, db1) ∧
      ∀ kk bb, cardoftheday [cardC] db1 1 2 kk bb = some (r, db1)) :=
  ⟨⟨by decide, fun p hp => by simp [get_daily_card_row] at hp⟩,
   cardoftheday_idempotent [cardC] [] 1 2 (by decide)
     (fun p hp => by simp [get_daily_card_row] at hp) 0 true⟩

/-- C4: storing a mystery entry and then revealing returns exactly the
stored card name and orientation and clears the pending entry; an
immediate second reveal reports nothing pending and changes nothing.
(Pending state is a per-user map, so at most one entry is pending per
user by construction.) -/
theorem mystery_reveal_roundtrip (catalog : List Card) (st : MysteryMap) (u : Nat)
    (e : MysteryEntry) (h : (find_card_by_name catalog e.name).isSome) :
    (reveal_step catalog (begin_mystery st u e) u).1 =
      .revealed e.name (if e.is_reversed then "Reversed" else "Upright") ∧
    (reveal_step catalog (begin_mystery st u e) u).2 u = none ∧
    reveal_step catalog ((reveal_step catalog (begin_mystery st u e) u).2) u =
      (.nothingPending, (reveal_step catalog (begin_mystery st u e) u).2) := by
  obtain ⟨c, hc⟩ := Option.isSome_iff_exists.mp h
  have hc2 : catalog.find? (fun c => c.name == e.name) = some c := hc
  have hbeq := List.find?_some hc2
  have hname : c.name = e.name := eq_of_beq hbeq
  have hst1 : begin_mystery st u e u = some e := by simp [begin_mystery]
  have hstep : reveal_step catalog (begin_mystery st u e) u =
      (.revealed c.name (if e.is_reversed then "Reversed" else "Upright"),
       pop_mystery (begin_mystery st u e) u) := by
    simp only [reveal_step, hst1, hc]
  refine ⟨?_, ?_, ?_⟩
  · rw [hstep, hname]
  · rw [hstep]
    simp [pop_mystery]
  · set st2 := (reveal_step catalog (begin_mystery st u e) u).2 with hst2
    have h2 : st2 u = none := by
      rw [hst2, hstep]
      simp [pop_mystery]
    show reveal_step catalog st2 u = (.nothingPending, st2)
    simp only [reveal_step, h2]

/-- Witness for C4 at a concrete catalog and user. -/
theorem mystery_reveal_roundtrip_witness :
    (find_card_by_name [cardC] mysteryE.name).isSome ∧
    ((reveal_step [cardC] (begin_mystery (fun _ => none) 7 mysteryE) 7).1 =
      .revealed mysteryE.name (if mysteryE.is_reversed then "Reversed" else "Upright") ∧
    (reveal_step [cardC] (begin_mystery (fun _ => none) 7 mysteryE) 7).2 7 = none ∧
    reveal_step [cardC] ((reveal_step [cardC] (begin_mystery (fun _ => none) 7 mysteryE) 7).2) 7 =
      (.nothingPending, (reveal_step [cardC] (begin_mystery (fun _ => none) 7 mysteryE) 7).2)) :=
  ⟨by decide, mystery_reveal_roundtrip [cardC] (fun _ => none) 7 mysteryE (by decide)⟩

/-- C10: a reveal attempt always leaves the user with no pending
mystery entry — also on the nothing-pending path and on the error path
where the stored name no longer resolves against the catalog (the
`finally` pop). -/
theorem reveal_always_clears (catalog : List Card) (st : MysteryMap) (u : Nat) :
    (reveal_step catalog st u).2 u = none := by
  unfold reveal_step
  cases hst : st u with
  | none => exact hst
  | some e => cases hfc : find_card_by_name catalog e.name <;> simp [hfc, pop_mystery]

/-- C5 (code bug evidence): at a state in which user 1 has rows of
every kind, `forgetme` deletes the preference, settings and history
rows and clears the transient intention and mystery entries, but the
stored daily-card row for user 1 survives untouched — the handler
issues no `DELETE` against `tarot_daily_card`. -/
theorem forgetme_misses_daily_card :
    (forgetme c5_state 1).prefs = [] ∧
    (forgetme c5_state 1).settings = [] ∧
    (forgetme c5_state 1).history = [] ∧
    (forgetme c5_state 1).intentions 1 = none ∧
    (forgetme c5_state 1).mystery 1 = none ∧
    (forgetme c5_state 1).daily = [((1, 20251012), ("The Sun", "Upright"))] := by
  refine ⟨by decide, by decide, by decide, ?_, ?_, rfl⟩
  · simp [forgetme, c5_state]
  · simp [forgetme, c5_state, pop_mystery]

/-- C6 counterexample: the query "Cups" matches two cards of this
catalog, yet the lookup proceeds with the first candidate instead of
surfacing the ambiguity. -/
theorem meaning_lookup_ambiguity_counterexample :
    (meaning_matches [cardA, cardB] "Cups").length = 2 ∧
    meaning_lookup [cardA, cardB] "Cups" = .resolved cardA := by decide

/-- C6 amended: whenever the query matches at least one card, the
lookup silently resolves to the first match in catalog order; a
multi-match ambiguity is never surfaced to the caller. -/
theorem meaning_lookup_picks_first (catalog : List Card) (query : String)
    (c : Card) (cs : List Card) (h : meaning_matches catalog query = c :: cs) :
    meaning_lookup catalog query = .resolved c := by
  unfold meaning_lookup
  rw [h]

/-- Witness for the amended C6 at the concrete ambiguous query. -/
theorem meaning_lookup_picks_first_witness :
    meaning_matches [cardA, cardB] "Cups" = [cardA, cardB] ∧
    meaning_lookup [cardA, cardB] "Cups" = .resolved cardA :=
  ⟨by decide, meaning_lookup_picks_first [cardA, cardB] "Cups" cardA [cardB] (by decide)⟩

/-- C7: the history logger is a no-op whenever the resolved settings
say `history_opt_in` is false, and in every case — settings fetch
failure, opt-out, insert failure or success — it returns normally with
the history either unchanged or appended-to, never propagating a
failure to the invoking command. -/
theorem log_history_opt_out_noop_and_safe (hist : List HistRow) (row : HistRow)
    (settings? : Option Settings) (fetch : Except String Settings)
    (insert : Except String Unit) :
    (∀ s, resolved_settings settings? fetch = .ok s → s.history_opt_in = false →
      log_history_if_opted_in hist row settings? fetch insert = hist) ∧
    (log_history_if_opted_in hist row settings? fetch insert = hist ∨
     log_history_if_opted_in hist row settings? fetch insert = hist ++ [row]) := by
  unfold log_history_if_opted_in log_history_body
  cases hres : resolved_settings settings? fetch with
  | error e =>
    refine ⟨fun s hs => ?_, Or.inl rfl⟩
    cases hs
  | ok s =>
    cases hopt : s.history_opt_in with
    | false =>
      refine ⟨fun s' hs' _ => ?_, Or.inl ?_⟩
      · simp [hopt]
      · simp [hopt]
    | true =>
      refine ⟨fun s' hs' hf => ?_, ?_⟩
      · injection hs' with hss
        subst hss
        simp [hopt] at hf
      · cases insert with
        | ok u =>
          exact Or.inr (by simp [hopt])
        | error e =>
          exact Or.inl (by simp [hopt])

/-- Witness for C7: caller-supplied opted-out settings, a failing
settings fetch and a healthy insert still write nothing. -/
theorem log_history_opt_out_noop_witness :
    log_history_if_opted_in [] histRow0 (some { history_opt_in := false, images_enabled := true })
      (.error "db down") (.ok ()) = [] :=
  (log_history_opt_out_noop_and_safe [] histRow0
      (some { history_opt_in := false, images_enabled := true })
      (.error "db down") (.ok ())).1
    { history_opt_in := false, images_enabled := true } rfl rfl

/-- C9: for every history table, user and requested limit, the rows the
`/history` command fetches are ordered most-recent-first (each entry's
timestamp is at least the next one's) and never number more than the
hard maximum of 20, however large or pathological the requested limit
is. -/
theorem history_fetch_sorted_bounded (hist : List HistRow) (u : Nat) (limit : Option Int) :
    (history_slash_fetch hist u limit).length ≤ 20 ∧
    (history_slash_fetch hist u limit).Sorted (fun a b => b.created_at ≤ a.created_at) := by
  constructor
  · have h20 : (history_slash_limit limit).toNat ≤ 20 := by
      cases limit with
      | none => simp [history_slash_limit]
      | some l =>
        simp only [history_slash_limit]
        omega
    unfold history_slash_fetch fetch_history
    exact le_trans (List.length_take_le _ _) h20
  · unfold history_slash_fetch fetch_history
    have hs := @List.sorted_mergeSort HistRow
      (fun a b => decide (b.created_at ≤ a.created_at))
      (fun a b c h1 h2 => by
        simp only [decide_eq_true_eq] at h1 h2 ⊢
        omega)
      (fun a b => by
        simp only [Bool.or_eq_true, decide_eq_true_eq]
        omega)
      (hist.filter (fun r => r.user_id == u))
    have hs' : ((hist.filter (fun r => r.user_id == u)).mergeSort
        (fun a b => decide (b.created_at ≤ a.created_at))).Sorted
        (fun a b : HistRow => b.created_at ≤ a.created_at) :=
      hs.imp (fun h => by simpa using h)
    exact hs'.sublist (List.take_sublist _ _)

end Arcanara
